import Mathlib

/-!
Shallow embedding of `gateway-service/main.py` (dazdaz/googlecloud-serverless).

The gateway forwards HTTP requests to downstream services, attaching an
identity token per request.  External effects (the identity-token provider
and the downstream HTTP services) are modelled by an oracle `World`; each
embedded function returns its Python result (or raised exception) together
with the list of outbound-call events it performed, in program order.
-/

/-- JSON values, as produced by `response.json()` / consumed by `jsonify`.
Objects are ordered field lists, matching Python dict insertion order. -/
inductive Json where
  | null
  | bool (b : Bool)
  | num (n : Int)
  | str (s : String)
  | arr (elems : List Json)
  | obj (fields : List (String × Json))

/-- Python exceptions that the gateway code can raise or catch:
`requests.exceptions.HTTPError` (from `raise_for_status`, carrying
`e.response.status_code`), token-provider failures, `ValueError`
(unsupported method), `IndexError` (from `url.split('/')[2]`), and
network-level `requests` exceptions. -/
inductive Exc where
  | httpError (status : Nat) (msg : String)
  | authError (msg : String)
  | valueError (msg : String)
  | indexError (msg : String)
  | networkError (msg : String)
deriving DecidableEq

/-- Python `str(e)` on a caught exception, used in the handlers'
`jsonify({'error': str(e)})` bodies. -/
def excStr : Exc → String
  | Exc.httpError _ m => m
  | Exc.authError m => m
  | Exc.valueError m => m
  | Exc.indexError m => m
  | Exc.networkError m => m

/-- Outbound side effects of the gateway, in program order. -/
inductive Event where
  | tokenFetch (audience : String)
  | httpCall (method : String) (url : String)
deriving DecidableEq

/-- The external world: `tokenResult` models `google.oauth2.id_token.fetch_id_token`
(audience to token, or a raised error); `httpResult` models the downstream
HTTP exchange (method, url, optional JSON payload to status and parsed JSON
body, or a network-level error). -/
structure World where
  tokenResult : String → Except String String
  httpResult : String → String → Option Json → Except String (Nat × Json)

/-- Python `str.split(sep)` for a single-character separator, on char lists:
adjacent separators yield empty segments and splitting the empty string
yields one empty segment. -/
def pySplitL (sep : Char) : List Char → List (List Char)
  | [] => [[]]
  | c :: cs =>
    if c = sep then [] :: pySplitL sep cs
    else
      match pySplitL sep cs with
      | [] => [[c]]
      | t :: ts => (c :: t) :: ts

/-- Python `url.split(sep)` on strings. -/
def pySplit (sep : Char) (s : String) : List String :=
  (pySplitL sep s.data).map (fun l => String.mk l)

/-- Line 48 of `main.py`:
`audience = url.split('/')[0] + '//' + url.split('/')[2]`. -/
def audienceOf (url : String) : String :=
  (pySplit '/' url).getD 0 "" ++ "//" ++ (pySplit '/' url).getD 2 ""

/-- `make_authenticated_request(url, method, data)` (lines 42-66): derive
the audience by string splitting (an `IndexError` when the split has fewer
than three segments), fetch an identity token, dispatch on the method
(GET / POST / `ValueError` otherwise), raise `HTTPError` on a 4xx/5xx
status (`raise_for_status`), and otherwise return the parsed JSON body.
The second component lists the outbound calls performed. -/
def make_authenticated_request (w : World) (url : String) (method : String)
    (data : Option Json) : Except Exc Json × List Event :=
  if (pySplit '/' url).length ≤ 2 then
    (Except.error (Exc.indexError "list index out of range"), [])
  else
    match w.tokenResult (audienceOf url) with
    | Except.error m => (Except.error (Exc.authError m), [Event.tokenFetch (audienceOf url)])
    | Except.ok _ =>
      if method = "GET" then
        match w.httpResult "GET" url none with
        | Except.error m =>
          (Except.error (Exc.networkError m),
           [Event.tokenFetch (audienceOf url), Event.httpCall "GET" url])
        | Except.ok (status, body) =>
          if 400 ≤ status ∧ status < 600 then
            (Except.error (Exc.httpError status ("HTTP error " ++ toString status)),
             [Event.tokenFetch (audienceOf url), Event.httpCall "GET" url])
          else
            (Except.ok body, [Event.tokenFetch (audienceOf url), Event.httpCall "GET" url])
      else if method = "POST" then
        match w.httpResult "POST" url data with
        | Except.error m =>
          (Except.error (Exc.networkError m),
           [Event.tokenFetch (audienceOf url), Event.httpCall "POST" url])
        | Except.ok (status, body) =>
          if 400 ≤ status ∧ status < 600 then
            (Except.error (Exc.httpError status ("HTTP error " ++ toString status)),
             [Event.tokenFetch (audienceOf url), Event.httpCall "POST" url])
          else
            (Except.ok body, [Event.tokenFetch (audienceOf url), Event.httpCall "POST" url])
      else
        (Except.error (Exc.valueError ("Unsupported HTTP method: " ++ method)),
         [Event.tokenFetch (audienceOf url)])

/-- Module-level configuration (lines 22-23): `USER_SERVICE_URL` and
`ORDER_SERVICE_URL` from the environment, defaulting to the empty string. -/
structure Env where
  USER_SERVICE_URL : String
  ORDER_SERVICE_URL : String

/-- `jsonify({'error': m})`. -/
def errBody (m : String) : Json :=
  Json.obj [("error", Json.str m)]

/-- `GET /api/users` (lines 85-103): relay the user list, any exception
mapped to a 500 with `str(e)` in the body. -/
def get_users (env : Env) (w : World) : (Nat × Json) × List Event :=
  if env.USER_SERVICE_URL = "" then
    ((500, errBody "USER_SERVICE_URL not configured"), [])
  else
    match make_authenticated_request w (env.USER_SERVICE_URL ++ "/users") "GET" none with
    | (Except.ok result, evs) =>
      ((200, Json.obj [("source", Json.str "gateway-service (Python)"),
                       ("target", Json.str "user-service (Go)"),
                       ("flow", Json.str "Gateway → User Service"),
                       ("data", result)]), evs)
    | (Except.error e, evs) => ((500, errBody (excStr e)), evs)

/-- `GET /api/users/<user_id>` (lines 106-123): relay a single user; the
handler catches every exception and returns 500. -/
def get_user (env : Env) (w : World) (user_id : String) : (Nat × Json) × List Event :=
  if env.USER_SERVICE_URL = "" then
    ((500, errBody "USER_SERVICE_URL not configured"), [])
  else
    match make_authenticated_request w (env.USER_SERVICE_URL ++ "/users/" ++ user_id) "GET" none with
    | (Except.ok result, evs) =>
      ((200, Json.obj [("source", Json.str "gateway-service (Python)"),
                       ("target", Json.str "user-service (Go)"),
                       ("flow", Json.str "Gateway → User Service"),
                       ("data", result)]), evs)
    | (Except.error e, evs) => ((500, errBody (excStr e)), evs)

/-- `GET /api/orders` (lines 126-144). -/
def get_orders (env : Env) (w : World) : (Nat × Json) × List Event :=
  if env.ORDER_SERVICE_URL = "" then
    ((500, errBody "ORDER_SERVICE_URL not configured"), [])
  else
    match make_authenticated_request w (env.ORDER_SERVICE_URL ++ "/orders") "GET" none with
    | (Except.ok result, evs) =>
      ((200, Json.obj [("source", Json.str "gateway-service (Python)"),
                       ("target", Json.str "order-service (Node.js)"),
                       ("flow", Json.str "Gateway → Order Service"),
                       ("data", result)]), evs)
    | (Except.error e, evs) => ((500, errBody (excStr e)), evs)

/-- Python truthiness on JSON values, for `request.get_json() or {}`. -/
def jsonTruthy : Json → Bool
  | Json.null => false
  | Json.bool b => b
  | Json.num n => !(n == 0)
  | Json.str s => !(s == "")
  | Json.arr l => !l.isEmpty
  | Json.obj l => !l.isEmpty

/-- `request.get_json() or {}` (line 157): `None` or any falsy JSON value
becomes the empty object. -/
def pyOr (reqJson : Option Json) : Json :=
  match reqJson with
  | none => Json.obj []
  | some v => if jsonTruthy v then v else Json.obj []

/-- `POST /api/orders` (lines 147-170): forward the request body, respond
201 on success. -/
def create_order (env : Env) (w : World) (reqJson : Option Json) : (Nat × Json) × List Event :=
  if env.ORDER_SERVICE_URL = "" then
    ((500, errBody "ORDER_SERVICE_URL not configured"), [])
  else
    match make_authenticated_request w (env.ORDER_SERVICE_URL ++ "/orders") "POST" (some (pyOr reqJson)) with
    | (Except.ok result, evs) =>
      ((201, Json.obj [("source", Json.str "gateway-service (Python)"),
                       ("target", Json.str "order-service (Node.js)"),
                       ("flow", Json.str "Gateway → Order Service"),
                       ("data", result)]), evs)
    | (Except.error e, evs) => ((500, errBody (excStr e)), evs)

/-- `GET /api/aggregate` (lines 173-217): call both services when their
URLs are configured, collecting each failure (or missing configuration)
as one message in `errors`; always respond 200, and include the `errors`
key only when the list is nonempty. -/
def aggregate_data (env : Env) (w : World) : (Nat × Json) × List Event :=
  let usersPart :=
    if env.USER_SERVICE_URL = "" then
      (([] : List (String × Json)), ["USER_SERVICE_URL not configured"], ([] : List Event))
    else
      match make_authenticated_request w (env.USER_SERVICE_URL ++ "/users") "GET" none with
      | (Except.ok users, evs) =>
        ([("users", Json.obj [("service", Json.str "user-service (Go)"), ("data", users)])],
         [], evs)
      | (Except.error e, evs) => ([], ["User service error: " ++ excStr e], evs)
  let ordersPart :=
    if env.ORDER_SERVICE_URL = "" then
      (([] : List (String × Json)), ["ORDER_SERVICE_URL not configured"], ([] : List Event))
    else
      match make_authenticated_request w (env.ORDER_SERVICE_URL ++ "/orders") "GET" none with
      | (Except.ok orders, evs) =>
        ([("orders", Json.obj [("service", Json.str "order-service (Node.js)"), ("data", orders)])],
         [], evs)
      | (Except.error e, evs) => ([], ["Order service error: " ++ excStr e], evs)
  let errors := usersPart.2.1 ++ ordersPart.2.1
  let body := Json.obj
    ([("source", Json.str "gateway-service (Python)"),
      ("flow", Json.str "Gateway → [User Service, Order Service]"),
      ("aggregated_data", Json.obj (usersPart.1 ++ ordersPart.1))] ++
     (if errors.isEmpty then [] else [("errors", Json.arr (errors.map Json.str))]))
  ((200, body), usersPart.2.2 ++ ordersPart.2.2)

/-- `GET /api/user-orders/<user_id>` (lines 220-258): one mesh call; an
`HTTPError` with status 404 becomes a 404 with a localized message, every
other exception a 500. -/
def get_user_orders (env : Env) (w : World) (user_id : String) : (Nat × Json) × List Event :=
  if env.USER_SERVICE_URL = "" then
    ((500, errBody "USER_SERVICE_URL not configured"), [])
  else
    match make_authenticated_request w (env.USER_SERVICE_URL ++ "/users/" ++ user_id ++ "/orders") "GET" none with
    | (Except.ok mesh_result, evs) =>
      ((200, Json.obj [("source", Json.str "gateway-service (Python)"),
                       ("workflow", Json.str "user-orders-mesh"),
                       ("flow", Json.str "Gateway → User Service → Order Service"),
                       ("data", mesh_result),
                       ("mesh_path", Json.arr [Json.str "gateway-service (Python)",
                                               Json.str "user-service (Go)",
                                               Json.str "order-service (Node.js)"])]), evs)
    | (Except.error (Exc.httpError status msg), evs) =>
      if status = 404 then
        ((404, errBody ("User " ++ user_id ++ " not found")), evs)
      else
        ((500, errBody (excStr (Exc.httpError status msg))), evs)
    | (Except.error e, evs) => ((500, errBody (excStr e)), evs)

/-- The shared `except` clauses of `get_user_orders_direct` (lines 298-303):
an `HTTPError` with status 404 becomes a 404 attributing the failure to the
user; everything else becomes a 500. -/
def direct_error_response (user_id : String) : Exc → Nat × Json
  | Exc.httpError status msg =>
    if status = 404 then (404, errBody ("User " ++ user_id ++ " not found"))
    else (500, errBody (excStr (Exc.httpError status msg)))
  | e => (500, errBody (excStr e))

/-- `GET /api/user-orders-direct/<user_id>` (lines 261-303): call the user
service, then the order service; the first raised exception aborts the
`try` block, so a first-call failure means the second call is never made. -/
def get_user_orders_direct (env : Env) (w : World) (user_id : String) : (Nat × Json) × List Event :=
  if env.USER_SERVICE_URL = "" ∨ env.ORDER_SERVICE_URL = "" then
    ((500, errBody "Services not configured"), [])
  else
    match make_authenticated_request w (env.USER_SERVICE_URL ++ "/users/" ++ user_id) "GET" none with
    | (Except.error e, evs1) => (direct_error_response user_id e, evs1)
    | (Except.ok user, evs1) =>
      match make_authenticated_request w (env.ORDER_SERVICE_URL ++ "/orders/user/" ++ user_id) "GET" none with
      | (Except.error e, evs2) => (direct_error_response user_id e, evs1 ++ evs2)
      | (Except.ok orders, evs2) =>
        ((200, Json.obj [("source", Json.str "gateway-service (Python)"),
                         ("workflow", Json.str "user-orders-direct"),
                         ("flow", Json.str "Gateway → User Service + Gateway → Order Service"),
                         ("user", Json.obj [("service", Json.str "user-service (Go)"),
                                            ("path", Json.str "Gateway → User Service"),
                                            ("data", user)]),
                         ("orders", Json.obj [("service", Json.str "order-service (Node.js)"),
                                              ("path", Json.str "Gateway → Order Service"),
                                              ("data", orders)])]), evs1 ++ evs2)

/-- Look a key up in a JSON object (first occurrence, as in a Python dict). -/
def getObjVal (j : Json) (k : String) : Option Json :=
  match j with
  | Json.obj fields => fields.lookup k
  | _ => none

/-- Whether a JSON object has a key. -/
def hasKey (j : Json) (k : String) : Bool :=
  (getObjVal j k).isSome

/-- Length of the `errors` array of a response body; 0 when the key is
absent. -/
def errorsCount (j : Json) : Nat :=
  match getObjVal j "errors" with
  | some (Json.arr l) => l.length
  | _ => 0

/-- The `errors` array of a response body, as a list; empty when the key
is absent. -/
def errorsList (j : Json) : List Json :=
  match getObjVal j "errors" with
  | some (Json.arr l) => l
  | _ => []

/-- Whether a forwarder result is a success. -/
def isOkE (r : Except Exc Json) : Bool :=
  match r with
  | Except.ok _ => true
  | Except.error _ => false

/-- Number of outbound HTTP requests in a trace. -/
def countHttpCalls (evs : List Event) : Nat :=
  (evs.filter (fun e => match e with
    | Event.httpCall _ _ => true
    | _ => false)).length

/-- A world where the token provider and every downstream call succeed,
the latter with status 200 and a `null` body. -/
def wOk : World :=
  ⟨fun _ => Except.ok "token", fun _ _ _ => Except.ok (200, Json.null)⟩

/-- A world where the token provider succeeds and every downstream call
responds with HTTP 404. -/
def w404 : World :=
  ⟨fun _ => Except.ok "token", fun _ _ _ => Except.ok (404, Json.null)⟩

/-- A world where only `http://o/orders/user/1` responds 404 and every
other downstream call succeeds. -/
def wSecond404 : World :=
  ⟨fun _ => Except.ok "token",
   fun _ u _ => if u = "http://o/orders/user/1" then Except.ok (404, Json.null)
                else Except.ok (200, Json.null)⟩

theorem mk_data (s : String) : String.mk s.data = s := by
  cases s
  rfl

theorem data_append (s t : String) : (s ++ t).data = s.data ++ t.data := by
  cases s
  cases t
  rfl

theorem pySplitL_ne_nil (sep : Char) (l : List Char) : pySplitL sep l ≠ [] := by
  cases l with
  | nil => simp [pySplitL]
  | cons c cs =>
    simp only [pySplitL]
    split
    · simp
    · split
      · simp
      · simp

theorem pySplitL_of_not_mem (sep : Char) (l : List Char) (h : sep ∉ l) :
    pySplitL sep l = [l] := by
  induction l with
  | nil => rfl
  | cons c cs ih =>
    have hc : c ≠ sep := fun he => h (he ▸ List.mem_cons_self c cs)
    have hcs : sep ∉ cs := fun hm => h (List.mem_cons_of_mem c hm)
    simp only [pySplitL, if_neg hc, ih hcs]

theorem pySplitL_append_sep (sep : Char) (l r : List Char) (h : sep ∉ l) :
    pySplitL sep (l ++ sep :: r) = l :: pySplitL sep r := by
  induction l with
  | nil => simp [pySplitL]
  | cons c cs ih =>
    have hc : c ≠ sep := fun he => h (he ▸ List.mem_cons_self c cs)
    have hcs : sep ∉ cs := fun hm => h (List.mem_cons_of_mem c hm)
    simp only [List.cons_append, pySplitL, if_neg hc, List.append_eq, ih hcs]

theorem string_data_ext (s t : String) (h : s.data = t.data) : s = t := by
  rw [← mk_data s, ← mk_data t]
  exact congrArg String.mk h

theorem pySplitL_sep_cons (sep : Char) (r : List Char) :
    pySplitL sep (sep :: r) = [] :: pySplitL sep r := by
  simp [pySplitL]

/-- An absolute URL `scheme://host` followed by an (optionally empty) path
splits on `/` into `scheme:`, the empty segment, the host, and the path
segments. -/
theorem pySplit_absolute_url (scheme host rest : String)
    (hs : '/' ∉ scheme.data) (hh : '/' ∉ host.data)
    (hr : rest.data = [] ∨ ∃ t, rest.data = '/' :: t) :
    ∃ ts, pySplit '/' (scheme ++ "://" ++ host ++ rest) =
      String.mk (scheme.data ++ [':']) :: String.mk [] :: host :: ts := by
  have hdata : (scheme ++ "://" ++ host ++ rest).data =
      (scheme.data ++ [':']) ++ '/' :: ('/' :: (host.data ++ rest.data)) := by
    simp [data_append]
  have hnot : '/' ∉ scheme.data ++ [':'] := by
    intro hm
    rcases List.mem_append.1 hm with hm1 | hm2
    · exact hs hm1
    · simp at hm2
  rcases hr with hr0 | ⟨t, hrt⟩
  · refine ⟨[], ?_⟩
    rw [pySplit, hdata, pySplitL_append_sep _ _ _ hnot,
      pySplitL_sep_cons, hr0, List.append_nil,
      pySplitL_of_not_mem _ _ hh]
    simp [mk_data]
  · refine ⟨(pySplitL '/' t).map (fun l => String.mk l), ?_⟩
    rw [pySplit, hdata, pySplitL_append_sep _ _ _ hnot,
      pySplitL_sep_cons, hrt,
      pySplitL_append_sep _ _ _ hh]
    simp [mk_data]

/-- Whenever the URL splits into more than two segments, the first event of
the forwarder's trace is the token fetch for the derived audience. -/
theorem make_authenticated_request_trace_head
    (w : World) (url method : String) (data : Option Json)
    (h : 2 < (pySplit '/' url).length) :
    (make_authenticated_request w url method data).2.head? =
      some (Event.tokenFetch (audienceOf url)) := by
  unfold make_authenticated_request
  rw [if_neg (by omega)]
  cases hw : w.tokenResult (audienceOf url) with
  | error m => simp
  | ok tok =>
    by_cases hg : method = "GET"
    · simp only [if_pos hg]
      cases hr : w.httpResult "GET" url none with
      | error m => simp
      | ok p =>
        obtain ⟨st, body⟩ := p
        by_cases hc : 400 ≤ st ∧ st < 600
        · simp [if_pos hc]
        · simp [if_neg hc]
    · by_cases hp : method = "POST"
      · simp only [if_neg hg, if_pos hp]
        cases hr : w.httpResult "POST" url data with
        | error m => simp
        | ok p =>
          obtain ⟨st, body⟩ := p
          by_cases hc : 400 ≤ st ∧ st < 600
          · simp [if_pos hc]
          · simp [if_neg hc]
      · simp [if_neg hg, if_neg hp]

theorem data_mk (l : List Char) : (String.mk l).data = l := rfl

/-- C1: for every absolute URL `scheme://host[:port]` followed by a path
(possibly empty, of any depth, with any query after the path slash),
`make_authenticated_request` derives the token audience as exactly
`scheme://host[:port]`: the audience computation strips everything after
the authority, and the token fetched first in the trace is scoped to it. -/
theorem audience_scheme_host (w : World) (method : String) (data : Option Json)
    (scheme host rest : String)
    (hs : '/' ∉ scheme.data) (hh : '/' ∉ host.data)
    (hr : rest.data = [] ∨ ∃ t, rest.data = '/' :: t) :
    audienceOf (scheme ++ "://" ++ host ++ rest) = scheme ++ "://" ++ host ∧
    (make_authenticated_request w (scheme ++ "://" ++ host ++ rest) method data).2.head? =
      some (Event.tokenFetch (scheme ++ "://" ++ host)) := by
  obtain ⟨ts, hsplit⟩ := pySplit_absolute_url scheme host rest hs hh hr
  have haud : audienceOf (scheme ++ "://" ++ host ++ rest) = scheme ++ "://" ++ host := by
    rw [audienceOf, hsplit]
    simp only [List.getD_cons_zero, List.getD_cons_succ]
    refine string_data_ext _ _ ?_
    simp [data_append, data_mk]
  have hlen : 2 < (pySplit '/' (scheme ++ "://" ++ host ++ rest)).length := by
    rw [hsplit]
    simp
  refine ⟨haud, ?_⟩
  rw [make_authenticated_request_trace_head w _ method data hlen, haud]

theorem audience_scheme_host_witness :
    ('/' ∉ "https".data) ∧ ('/' ∉ "example.com".data) ∧
    ("/a/b?q=1".data = [] ∨ ∃ t, "/a/b?q=1".data = '/' :: t) ∧
    audienceOf ("https" ++ "://" ++ "example.com" ++ "/a/b?q=1") =
      "https" ++ "://" ++ "example.com" ∧
    (make_authenticated_request wOk ("https" ++ "://" ++ "example.com" ++ "/a/b?q=1")
        "GET" none).2.head? =
      some (Event.tokenFetch ("https" ++ "://" ++ "example.com")) := by
  have h := audience_scheme_host wOk "GET" none "https" "example.com" "/a/b?q=1"
    (by decide) (by decide) (Or.inr ⟨"a/b?q=1".data, by decide⟩)
  exact ⟨by decide, by decide, Or.inr ⟨"a/b?q=1".data, by decide⟩, h.1, h.2⟩

/-- C6: for a method other than GET or POST, `make_authenticated_request`
never issues an HTTP request to the target URL (no `httpCall` event in its
trace), and — once the audience parse and token fetch have gone through —
it fails with the unsupported-method `ValueError`. -/
theorem unsupported_method_no_http_call (w : World) (url method : String)
    (data : Option Json) (h1 : method ≠ "GET") (h2 : method ≠ "POST") :
    countHttpCalls (make_authenticated_request w url method data).2 = 0 ∧
    (∀ tok, 2 < (pySplit '/' url).length →
      w.tokenResult (audienceOf url) = Except.ok tok →
      (make_authenticated_request w url method data).1 =
        Except.error (Exc.valueError ("Unsupported HTTP method: " ++ method))) := by
  constructor
  · unfold make_authenticated_request
    by_cases hl : (pySplit '/' url).length ≤ 2
    · simp [if_pos hl, countHttpCalls]
    · rw [if_neg hl]
      cases hw : w.tokenResult (audienceOf url) with
      | error m => simp [countHttpCalls]
      | ok tok => simp [if_neg h1, if_neg h2, countHttpCalls]
  · intro tok hlen htok
    unfold make_authenticated_request
    rw [if_neg (by omega), htok]
    simp [if_neg h1, if_neg h2]

theorem unsupported_method_no_http_call_witness :
    ("DELETE" ≠ "GET") ∧ ("DELETE" ≠ "POST") ∧
    (2 < (pySplit '/' "https://a/b").length) ∧
    countHttpCalls (make_authenticated_request wOk "https://a/b" "DELETE" none).2 = 0 ∧
    (make_authenticated_request wOk "https://a/b" "DELETE" none).1 =
      Except.error (Exc.valueError ("Unsupported HTTP method: " ++ "DELETE")) := by
  have h := unsupported_method_no_http_call wOk "https://a/b" "DELETE" none
    (by decide) (by decide)
  exact ⟨by decide, by decide, by decide, h.1, h.2 "token" (by decide) rfl⟩

/-- C9: invoked with a method other than GET or POST (on a URL whose split
parse goes through, with a responsive token provider), the forwarder still
performs exactly one token-fetch call — its whole trace is that single
event — before raising the unsupported-method error. -/
theorem unsupported_method_still_fetches_token (w : World) (url method : String)
    (data : Option Json) (tok : String)
    (h1 : method ≠ "GET") (h2 : method ≠ "POST")
    (hlen : 2 < (pySplit '/' url).length)
    (htok : w.tokenResult (audienceOf url) = Except.ok tok) :
    (make_authenticated_request w url method data).2 =
      [Event.tokenFetch (audienceOf url)] ∧
    (make_authenticated_request w url method data).1 =
      Except.error (Exc.valueError ("Unsupported HTTP method: " ++ method)) := by
  unfold make_authenticated_request
  rw [if_neg (by omega), htok]
  simp [if_neg h1, if_neg h2]

theorem unsupported_method_still_fetches_token_witness :
    ("PATCH" ≠ "GET") ∧ ("PATCH" ≠ "POST") ∧
    (2 < (pySplit '/' "https://a/b").length) ∧
    (wOk.tokenResult (audienceOf "https://a/b") = Except.ok "token") ∧
    (make_authenticated_request wOk "https://a/b" "PATCH" none).2 =
      [Event.tokenFetch (audienceOf "https://a/b")] ∧
    (make_authenticated_request wOk "https://a/b" "PATCH" none).1 =
      Except.error (Exc.valueError ("Unsupported HTTP method: " ++ "PATCH")) := by
  have h := unsupported_method_still_fetches_token wOk "https://a/b" "PATCH" none "token"
    (by decide) (by decide) (by decide) rfl
  exact ⟨by decide, by decide, by decide, rfl, h.1, h.2⟩

theorem forwarder_at_most_one_http (w : World) (url method : String)
    (data : Option Json) :
    countHttpCalls (make_authenticated_request w url method data).2 ≤ 1 := by
  unfold make_authenticated_request
  by_cases hl : (pySplit '/' url).length ≤ 2
  · simp [if_pos hl, countHttpCalls]
  · rw [if_neg hl]
    cases hw : w.tokenResult (audienceOf url) with
    | error m => simp [countHttpCalls]
    | ok tok =>
      by_cases hg : method = "GET"
      · simp only [if_pos hg]
        cases hr : w.httpResult "GET" url none with
        | error m => simp [countHttpCalls]
        | ok p =>
          obtain ⟨st, body⟩ := p
          by_cases hc : 400 ≤ st ∧ st < 600
          · simp [if_pos hc, countHttpCalls]
          · simp [if_neg hc, countHttpCalls]
      · by_cases hp : method = "POST"
        · simp only [if_neg hg, if_pos hp]
          cases hr : w.httpResult "POST" url data with
          | error m => simp [countHttpCalls]
          | ok p =>
            obtain ⟨st, body⟩ := p
            by_cases hc : 400 ≤ st ∧ st < 600
            · simp [if_pos hc, countHttpCalls]
            · simp [if_neg hc, countHttpCalls]
        · simp [if_neg hg, if_neg hp, countHttpCalls]

/-- C5: when the single mesh call of `GET /api/user-orders/{id}` fails with
an `HTTPError` carrying status 404, the gateway responds 404 with body
exactly the object with one key `error` mapping to `User {id} not found`. -/
theorem user_orders_404_message (env : Env) (w : World) (user_id msg : String)
    (evs : List Event) (hu : env.USER_SERVICE_URL ≠ "")
    (h : make_authenticated_request w
        (env.USER_SERVICE_URL ++ "/users/" ++ user_id ++ "/orders") "GET" none =
      (Except.error (Exc.httpError 404 msg), evs)) :
    (get_user_orders env w user_id).1 =
      (404, Json.obj [("error", Json.str ("User " ++ user_id ++ " not found"))]) := by
  unfold get_user_orders
  rw [if_neg hu, h]
  rfl

theorem user_orders_404_message_witness :
    ((Env.mk "http://u" "http://o").USER_SERVICE_URL ≠ "") ∧
    (make_authenticated_request w404
        ((Env.mk "http://u" "http://o").USER_SERVICE_URL ++ "/users/" ++ "1" ++ "/orders")
        "GET" none =
      (Except.error (Exc.httpError 404 "HTTP error 404"),
       [Event.tokenFetch "http://u", Event.httpCall "GET" "http://u/users/1/orders"])) ∧
    (get_user_orders (Env.mk "http://u" "http://o") w404 "1").1 =
      (404, Json.obj [("error", Json.str ("User " ++ "1" ++ " not found"))]) := by
  refine ⟨by decide, rfl, ?_⟩
  exact user_orders_404_message (Env.mk "http://u" "http://o") w404 "1" "HTTP error 404"
    [Event.tokenFetch "http://u", Event.httpCall "GET" "http://u/users/1/orders"]
    (by decide) rfl

/-- C4: in `GET /api/user-orders-direct/{id}`, when the first forwarder
call (to the user service) fails, the handler's whole trace is that first
call's trace — the second call to the order service is never issued, and a
single forwarder call performs at most one HTTP request — and the handler
returns the first error mapped through the shared `except` clauses. -/
theorem direct_first_failure_short_circuits (env : Env) (w : World)
    (user_id : String) (e : Exc) (evs : List Event)
    (hu : env.USER_SERVICE_URL ≠ "") (ho : env.ORDER_SERVICE_URL ≠ "")
    (h : make_authenticated_request w
        (env.USER_SERVICE_URL ++ "/users/" ++ user_id) "GET" none =
      (Except.error e, evs)) :
    (get_user_orders_direct env w user_id).2 = evs ∧
    countHttpCalls (get_user_orders_direct env w user_id).2 ≤ 1 ∧
    (get_user_orders_direct env w user_id).1 = direct_error_response user_id e := by
  have hcond : ¬(env.USER_SERVICE_URL = "" ∨ env.ORDER_SERVICE_URL = "") := by
    rintro (hc | hc)
    · exact hu hc
    · exact ho hc
  have hcount := forwarder_at_most_one_http w
    (env.USER_SERVICE_URL ++ "/users/" ++ user_id) "GET" none
  rw [h] at hcount
  unfold get_user_orders_direct
  rw [if_neg hcond, h]
  exact ⟨rfl, hcount, rfl⟩

theorem direct_first_failure_short_circuits_witness :
    ((Env.mk "http://u" "http://o").USER_SERVICE_URL ≠ "") ∧
    ((Env.mk "http://u" "http://o").ORDER_SERVICE_URL ≠ "") ∧
    (make_authenticated_request w404
        ((Env.mk "http://u" "http://o").USER_SERVICE_URL ++ "/users/" ++ "1") "GET" none =
      (Except.error (Exc.httpError 404 "HTTP error 404"),
       [Event.tokenFetch "http://u", Event.httpCall "GET" "http://u/users/1"])) ∧
    (get_user_orders_direct (Env.mk "http://u" "http://o") w404 "1").2 =
      [Event.tokenFetch "http://u", Event.httpCall "GET" "http://u/users/1"] ∧
    countHttpCalls (get_user_orders_direct (Env.mk "http://u" "http://o") w404 "1").2 ≤ 1 ∧
    (get_user_orders_direct (Env.mk "http://u" "http://o") w404 "1").1 =
      direct_error_response "1" (Exc.httpError 404 "HTTP error 404") := by
  have h := direct_first_failure_short_circuits (Env.mk "http://u" "http://o") w404 "1"
    (Exc.httpError 404 "HTTP error 404")
    [Event.tokenFetch "http://u", Event.httpCall "GET" "http://u/users/1"]
    (by decide) (by decide) rfl
  exact ⟨by decide, by decide, rfl, h.1, h.2.1, h.2.2⟩

/-- C10: in `GET /api/user-orders-direct/{id}`, an `HTTPError` with status
404 from either downstream call — the user-service call or the subsequent
order-service call — yields status 404 with body `User {id} not found`,
attributing the failure to the user in both cases. -/
theorem direct_404_attributed_to_user (env : Env) (w : World) (user_id : String)
    (hu : env.USER_SERVICE_URL ≠ "") (ho : env.ORDER_SERVICE_URL ≠ "") :
    (∀ msg evs,
      make_authenticated_request w
          (env.USER_SERVICE_URL ++ "/users/" ++ user_id) "GET" none =
        (Except.error (Exc.httpError 404 msg), evs) →
      (get_user_orders_direct env w user_id).1 =
        (404, errBody ("User " ++ user_id ++ " not found"))) ∧
    (∀ user evs1 msg evs2,
      make_authenticated_request w
          (env.USER_SERVICE_URL ++ "/users/" ++ user_id) "GET" none =
        (Except.ok user, evs1) →
      make_authenticated_request w
          (env.ORDER_SERVICE_URL ++ "/orders/user/" ++ user_id) "GET" none =
        (Except.error (Exc.httpError 404 msg), evs2) →
      (get_user_orders_direct env w user_id).1 =
        (404, errBody ("User " ++ user_id ++ " not found"))) := by
  have hcond : ¬(env.USER_SERVICE_URL = "" ∨ env.ORDER_SERVICE_URL = "") := by
    rintro (hc | hc)
    · exact hu hc
    · exact ho hc
  constructor
  · intro msg evs h
    unfold get_user_orders_direct
    rw [if_neg hcond, h]
    rfl
  · intro user evs1 msg evs2 h1 h2
    unfold get_user_orders_direct
    rw [if_neg hcond, h1, h2]
    rfl

theorem direct_404_attributed_to_user_witness :
    ((Env.mk "http://u" "http://o").USER_SERVICE_URL ≠ "") ∧
    ((Env.mk "http://u" "http://o").ORDER_SERVICE_URL ≠ "") ∧
    (get_user_orders_direct (Env.mk "http://u" "http://o") wSecond404 "1").1 =
      (404, errBody ("User " ++ "1" ++ " not found")) := by
  refine ⟨by decide, by decide, ?_⟩
  exact (direct_404_attributed_to_user (Env.mk "http://u" "http://o") wSecond404 "1"
      (by decide) (by decide)).2 Json.null
    [Event.tokenFetch "http://u", Event.httpCall "GET" "http://u/users/1"]
    "HTTP error 404"
    [Event.tokenFetch "http://o", Event.httpCall "GET" "http://o/orders/user/1"]
    rfl rfl

/-- C2 counterexample: with the user service responding 404, the handler
for `GET /api/users/{id}` responds 500, not 404 — its `except` clause
catches every exception uniformly. -/
theorem get_user_maps_404_to_500 :
    (get_user (Env.mk "http://u" "http://o") w404 "1").1.1 = 500 ∧
    ¬((get_user (Env.mk "http://u" "http://o") w404 "1").1.1 = 404) := by
  constructor
  · rfl
  · decide

/-- C2 amended: across all seven Forwarder-calling handlers, the
downstream-404-to-404 mapping exists only in `GET /api/user-orders/{id}`
and `GET /api/user-orders-direct/{id}`, which respond 404 exactly when the
downstream `HTTPError` status is 404 and 500 otherwise; the relay handlers
`GET /api/users`, `GET /api/users/{id}`, `GET /api/orders` and
`POST /api/orders` map every downstream error status — 404 included — to
500; and `GET /api/aggregate` responds 200 regardless of downstream
failures. -/
theorem error_status_mapping (env : Env) (w : World) (user_id msg : String)
    (status : Nat) (reqJson : Option Json) :
    (∀ evs, env.USER_SERVICE_URL ≠ "" →
      make_authenticated_request w
          (env.USER_SERVICE_URL ++ "/users") "GET" none =
        (Except.error (Exc.httpError status msg), evs) →
      (get_users env w).1.1 = 500) ∧
    (∀ evs, env.USER_SERVICE_URL ≠ "" →
      make_authenticated_request w
          (env.USER_SERVICE_URL ++ "/users/" ++ user_id) "GET" none =
        (Except.error (Exc.httpError status msg), evs) →
      (get_user env w user_id).1.1 = 500) ∧
    (∀ evs, env.ORDER_SERVICE_URL ≠ "" →
      make_authenticated_request w
          (env.ORDER_SERVICE_URL ++ "/orders") "GET" none =
        (Except.error (Exc.httpError status msg), evs) →
      (get_orders env w).1.1 = 500) ∧
    (∀ evs, env.ORDER_SERVICE_URL ≠ "" →
      make_authenticated_request w
          (env.ORDER_SERVICE_URL ++ "/orders") "POST" (some (pyOr reqJson)) =
        (Except.error (Exc.httpError status msg), evs) →
      (create_order env w reqJson).1.1 = 500) ∧
    (∀ evs, env.USER_SERVICE_URL ≠ "" →
      make_authenticated_request w
          (env.USER_SERVICE_URL ++ "/users/" ++ user_id ++ "/orders") "GET" none =
        (Except.error (Exc.httpError status msg), evs) →
      (get_user_orders env w user_id).1.1 = (if status = 404 then 404 else 500)) ∧
    (∀ evs, env.USER_SERVICE_URL ≠ "" → env.ORDER_SERVICE_URL ≠ "" →
      make_authenticated_request w
          (env.USER_SERVICE_URL ++ "/users/" ++ user_id) "GET" none =
        (Except.error (Exc.httpError status msg), evs) →
      (get_user_orders_direct env w user_id).1.1 =
        (if status = 404 then 404 else 500)) ∧
    (∀ user evs1 evs2, env.USER_SERVICE_URL ≠ "" → env.ORDER_SERVICE_URL ≠ "" →
      make_authenticated_request w
          (env.USER_SERVICE_URL ++ "/users/" ++ user_id) "GET" none =
        (Except.ok user, evs1) →
      make_authenticated_request w
          (env.ORDER_SERVICE_URL ++ "/orders/user/" ++ user_id) "GET" none =
        (Except.error (Exc.httpError status msg), evs2) →
      (get_user_orders_direct env w user_id).1.1 =
        (if status = 404 then 404 else 500)) ∧
    (aggregate_data env w).1.1 = 200 := by
  refine ⟨?_, ?_, ?_, ?_, ?_, ?_, ?_, rfl⟩
  · intro evs hu h
    unfold get_users
    rw [if_neg hu, h]
  · intro evs hu h
    unfold get_user
    rw [if_neg hu, h]
  · intro evs ho h
    unfold get_orders
    rw [if_neg ho, h]
  · intro evs ho h
    unfold create_order
    rw [if_neg ho, h]
  · intro evs hu h
    unfold get_user_orders
    rw [if_neg hu, h]
    by_cases hc : status = 404 <;> simp [hc]
  · intro evs hu ho h
    have hcond : ¬(env.USER_SERVICE_URL = "" ∨ env.ORDER_SERVICE_URL = "") := by
      rintro (hc | hc)
      · exact hu hc
      · exact ho hc
    unfold get_user_orders_direct
    rw [if_neg hcond, h]
    by_cases hc : status = 404 <;> simp [direct_error_response, hc]
  · intro user evs1 evs2 hu ho h1 h2
    have hcond : ¬(env.USER_SERVICE_URL = "" ∨ env.ORDER_SERVICE_URL = "") := by
      rintro (hc | hc)
      · exact hu hc
      · exact ho hc
    unfold get_user_orders_direct
    rw [if_neg hcond, h1, h2]
    by_cases hc : status = 404 <;> simp [direct_error_response, hc]

theorem error_status_mapping_witness :
    ((Env.mk "http://u" "http://o").USER_SERVICE_URL ≠ "") ∧
    ((Env.mk "http://u" "http://o").ORDER_SERVICE_URL ≠ "") ∧
    (make_authenticated_request w404
        ((Env.mk "http://u" "http://o").USER_SERVICE_URL ++ "/users/" ++ "1") "GET" none =
      (Except.error (Exc.httpError 404 "HTTP error 404"),
       [Event.tokenFetch "http://u", Event.httpCall "GET" "http://u/users/1"])) ∧
    (get_users (Env.mk "http://u" "http://o") w404).1.1 = 500 ∧
    (get_user (Env.mk "http://u" "http://o") w404 "1").1.1 = 500 ∧
    (get_orders (Env.mk "http://u" "http://o") w404).1.1 = 500 ∧
    (create_order (Env.mk "http://u" "http://o") w404 none).1.1 = 500 ∧
    (get_user_orders (Env.mk "http://u" "http://o") w404 "1").1.1 =
      (if (404 : Nat) = 404 then 404 else 500) ∧
    (get_user_orders_direct (Env.mk "http://u" "http://o") w404 "1").1.1 =
      (if (404 : Nat) = 404 then 404 else 500) ∧
    (get_user_orders_direct (Env.mk "http://u" "http://o") wSecond404 "1").1.1 =
      (if (404 : Nat) = 404 then 404 else 500) ∧
    (aggregate_data (Env.mk "http://u" "http://o") w404).1.1 = 200 := by
  have h := error_status_mapping (Env.mk "http://u" "http://o") w404 "1" "HTTP error 404"
    404 none
  have h2 := error_status_mapping (Env.mk "http://u" "http://o") wSecond404 "1"
    "HTTP error 404" 404 none
  exact ⟨by decide, by decide, rfl,
    h.1 [Event.tokenFetch "http://u", Event.httpCall "GET" "http://u/users"] (by decide) rfl,
    h.2.1 [Event.tokenFetch "http://u", Event.httpCall "GET" "http://u/users/1"]
      (by decide) rfl,
    h.2.2.1 [Event.tokenFetch "http://o", Event.httpCall "GET" "http://o/orders"]
      (by decide) rfl,
    h.2.2.2.1 [Event.tokenFetch "http://o", Event.httpCall "POST" "http://o/orders"]
      (by decide) rfl,
    h.2.2.2.2.1 [Event.tokenFetch "http://u", Event.httpCall "GET" "http://u/users/1/orders"]
      (by decide) rfl,
    h.2.2.2.2.2.1 [Event.tokenFetch "http://u", Event.httpCall "GET" "http://u/users/1"]
      (by decide) (by decide) rfl,
    h2.2.2.2.2.2.2.1 Json.null
      [Event.tokenFetch "http://u", Event.httpCall "GET" "http://u/users/1"]
      [Event.tokenFetch "http://o", Event.httpCall "GET" "http://o/orders/user/1"]
      (by decide) (by decide) rfl rfl,
    h.2.2.2.2.2.2.2⟩

/-- C7 counterexample: with neither URL configured, `GET /api/aggregate`
responds 200 (with the messages embedded in its body), not 500. -/
theorem aggregate_missing_config_not_500 :
    (aggregate_data (Env.mk "" "") wOk).1.1 = 200 ∧
    ¬((aggregate_data (Env.mk "" "") wOk).1.1 = 500) ∧
    (aggregate_data (Env.mk "" "") wOk).2 = [] := by
  refine ⟨rfl, by decide, rfl⟩

/-- C7 amended: every handler except `GET /api/aggregate` fails fast on a
missing required URL with HTTP 500, an explicit `not configured` message,
and no outbound call; `GET /api/aggregate`, whenever either URL is missing
(the other configured or not), issues no call for the missing service —
its trace is exactly the other service's call trace, or empty — records
the `not configured` message in its `errors` list, and responds 200. -/
theorem missing_config_fail_fast (env : Env) (w : World) (user_id : String)
    (reqJson : Option Json) :
    (env.USER_SERVICE_URL = "" →
      get_users env w = ((500, errBody "USER_SERVICE_URL not configured"), []) ∧
      get_user env w user_id = ((500, errBody "USER_SERVICE_URL not configured"), []) ∧
      get_user_orders env w user_id =
        ((500, errBody "USER_SERVICE_URL not configured"), []) ∧
      get_user_orders_direct env w user_id =
        ((500, errBody "Services not configured"), [])) ∧
    (env.ORDER_SERVICE_URL = "" →
      get_orders env w = ((500, errBody "ORDER_SERVICE_URL not configured"), []) ∧
      create_order env w reqJson =
        ((500, errBody "ORDER_SERVICE_URL not configured"), []) ∧
      get_user_orders_direct env w user_id =
        ((500, errBody "Services not configured"), [])) ∧
    (env.USER_SERVICE_URL = "" →
      (aggregate_data env w).1.1 = 200 ∧
      Json.str "USER_SERVICE_URL not configured" ∈
        errorsList (aggregate_data env w).1.2 ∧
      (aggregate_data env w).2 =
        (if env.ORDER_SERVICE_URL = "" then []
         else (make_authenticated_request w (env.ORDER_SERVICE_URL ++ "/orders")
           "GET" none).2)) ∧
    (env.ORDER_SERVICE_URL = "" →
      (aggregate_data env w).1.1 = 200 ∧
      Json.str "ORDER_SERVICE_URL not configured" ∈
        errorsList (aggregate_data env w).1.2 ∧
      (aggregate_data env w).2 =
        (if env.USER_SERVICE_URL = "" then []
         else (make_authenticated_request w (env.USER_SERVICE_URL ++ "/users")
           "GET" none).2)) ∧
    (env.USER_SERVICE_URL = "" → env.ORDER_SERVICE_URL = "" →
      aggregate_data env w =
        ((200, Json.obj [("source", Json.str "gateway-service (Python)"),
                         ("flow", Json.str "Gateway → [User Service, Order Service]"),
                         ("aggregated_data", Json.obj []),
                         ("errors", Json.arr [Json.str "USER_SERVICE_URL not configured",
                                              Json.str "ORDER_SERVICE_URL not configured"])]),
         [])) := by
  refine ⟨?_, ?_, ?_, ?_, ?_⟩
  · intro hu
    refine ⟨?_, ?_, ?_, ?_⟩
    · unfold get_users
      rw [if_pos hu]
    · unfold get_user
      rw [if_pos hu]
    · unfold get_user_orders
      rw [if_pos hu]
    · unfold get_user_orders_direct
      rw [if_pos (Or.inl hu)]
  · intro ho
    refine ⟨?_, ?_, ?_⟩
    · unfold get_orders
      rw [if_pos ho]
    · unfold create_order
      rw [if_pos ho]
    · unfold get_user_orders_direct
      rw [if_pos (Or.inr ho)]
  · intro hu
    by_cases ho2 : env.ORDER_SERVICE_URL = ""
    · simp [aggregate_data, hu, ho2, errorsList, getObjVal, List.lookup]
    · rcases hco : make_authenticated_request w (env.ORDER_SERVICE_URL ++ "/orders")
        "GET" none with ⟨ro, evso⟩
      cases ro <;>
        simp [aggregate_data, hu, ho2, hco, errorsList, getObjVal, List.lookup]
  · intro ho
    by_cases hu2 : env.USER_SERVICE_URL = ""
    · simp [aggregate_data, ho, hu2, errorsList, getObjVal, List.lookup]
    · rcases hcu : make_authenticated_request w (env.USER_SERVICE_URL ++ "/users")
        "GET" none with ⟨ru, evsu⟩
      cases ru <;>
        simp [aggregate_data, ho, hu2, hcu, errorsList, getObjVal, List.lookup]
  · intro hu ho
    unfold aggregate_data
    simp [hu, ho]

theorem missing_config_fail_fast_witness :
    ((Env.mk "" "").USER_SERVICE_URL = "") ∧
    ((Env.mk "" "").ORDER_SERVICE_URL = "") ∧
    get_users (Env.mk "" "") wOk = ((500, errBody "USER_SERVICE_URL not configured"), []) ∧
    get_user_orders_direct (Env.mk "" "") wOk "1" =
      ((500, errBody "Services not configured"), []) ∧
    aggregate_data (Env.mk "" "") wOk =
      ((200, Json.obj [("source", Json.str "gateway-service (Python)"),
                       ("flow", Json.str "Gateway → [User Service, Order Service]"),
                       ("aggregated_data", Json.obj []),
                       ("errors", Json.arr [Json.str "USER_SERVICE_URL not configured",
                                            Json.str "ORDER_SERVICE_URL not configured"])]),
       []) ∧
    (aggregate_data (Env.mk "" "http://o") wOk).1.1 = 200 ∧
    Json.str "USER_SERVICE_URL not configured" ∈
      errorsList (aggregate_data (Env.mk "" "http://o") wOk).1.2 ∧
    (aggregate_data (Env.mk "" "http://o") wOk).2 =
      (if (Env.mk "" "http://o").ORDER_SERVICE_URL = "" then []
       else (make_authenticated_request wOk
         ((Env.mk "" "http://o").ORDER_SERVICE_URL ++ "/orders") "GET" none).2) := by
  have h := missing_config_fail_fast (Env.mk "" "") wOk "1" none
  have hA := missing_config_fail_fast (Env.mk "" "http://o") wOk "1" none
  exact ⟨rfl, rfl, (h.1 rfl).1, (h.1 rfl).2.2.2, h.2.2.2.2 rfl rfl,
    (hA.2.2.1 rfl).1, (hA.2.2.1 rfl).2.1, (hA.2.2.1 rfl).2.2⟩

/-- C8: when the downstream POST of `POST /api/orders` returns a 2xx
status, the gateway responds 201 and the `data` field of its body is
exactly the downstream service's parsed JSON response. -/
theorem create_order_success (env : Env) (w : World) (reqJson : Option Json)
    (j : Json) (status : Nat) (tok : String)
    (ho : env.ORDER_SERVICE_URL ≠ "")
    (hlen : 2 < (pySplit '/' (env.ORDER_SERVICE_URL ++ "/orders")).length)
    (htok : w.tokenResult (audienceOf (env.ORDER_SERVICE_URL ++ "/orders")) =
      Except.ok tok)
    (hresp : w.httpResult "POST" (env.ORDER_SERVICE_URL ++ "/orders")
        (some (pyOr reqJson)) = Except.ok (status, j))
    (h2xx : 200 ≤ status ∧ status < 300) :
    (create_order env w reqJson).1.1 = 201 ∧
    getObjVal (create_order env w reqJson).1.2 "data" = some j := by
  have hcall : make_authenticated_request w (env.ORDER_SERVICE_URL ++ "/orders") "POST"
      (some (pyOr reqJson)) =
      (Except.ok j,
       [Event.tokenFetch (audienceOf (env.ORDER_SERVICE_URL ++ "/orders")),
        Event.httpCall "POST" (env.ORDER_SERVICE_URL ++ "/orders")]) := by
    have hlt : ¬(400 ≤ status ∧ status < 600) := by omega
    unfold make_authenticated_request
    rw [if_neg (by omega), htok, if_neg (by decide : ¬("POST" = "GET")),
      if_pos (rfl : "POST" = "POST"), hresp]
    simp [hlt]
  unfold create_order
  rw [if_neg ho, hcall]
  exact ⟨rfl, rfl⟩

theorem create_order_success_witness :
    ((Env.mk "http://u" "http://o").ORDER_SERVICE_URL ≠ "") ∧
    (2 < (pySplit '/' ((Env.mk "http://u" "http://o").ORDER_SERVICE_URL ++ "/orders")).length) ∧
    (wOk.tokenResult (audienceOf ((Env.mk "http://u" "http://o").ORDER_SERVICE_URL ++ "/orders")) =
      Except.ok "token") ∧
    (wOk.httpResult "POST" ((Env.mk "http://u" "http://o").ORDER_SERVICE_URL ++ "/orders")
        (some (pyOr none)) = Except.ok (200, Json.null)) ∧
    (200 ≤ 200 ∧ 200 < 300) ∧
    (create_order (Env.mk "http://u" "http://o") wOk none).1.1 = 201 ∧
    getObjVal (create_order (Env.mk "http://u" "http://o") wOk none).1.2 "data" =
      some Json.null := by
  have h := create_order_success (Env.mk "http://u" "http://o") wOk none Json.null 200 "token"
    (by decide) (by decide) rfl rfl (by decide)
  exact ⟨by decide, by decide, rfl, rfl, by decide, h.1, h.2⟩

/-- C3: with both URLs configured, `GET /api/aggregate` responds 200 for
every combination of downstream outcomes; `aggregated_data` holds the
`users` key exactly when the user-service call succeeded and the `orders`
key exactly when the order-service call succeeded; each failing call
contributes exactly one entry to `errors`; and with both calls failing,
`errors` has exactly two entries and `aggregated_data` is empty. -/
theorem aggregate_accumulates_failures (env : Env) (w : World)
    (hu : env.USER_SERVICE_URL ≠ "") (ho : env.ORDER_SERVICE_URL ≠ "") :
    (aggregate_data env w).1.1 = 200 ∧
    hasKey ((getObjVal (aggregate_data env w).1.2 "aggregated_data").getD Json.null)
        "users" =
      isOkE (make_authenticated_request w (env.USER_SERVICE_URL ++ "/users") "GET" none).1 ∧
    hasKey ((getObjVal (aggregate_data env w).1.2 "aggregated_data").getD Json.null)
        "orders" =
      isOkE (make_authenticated_request w (env.ORDER_SERVICE_URL ++ "/orders") "GET" none).1 ∧
    errorsCount (aggregate_data env w).1.2 =
      ((if isOkE (make_authenticated_request w (env.USER_SERVICE_URL ++ "/users")
            "GET" none).1 then 0 else 1) +
       (if isOkE (make_authenticated_request w (env.ORDER_SERVICE_URL ++ "/orders")
            "GET" none).1 then 0 else 1)) ∧
    (isOkE (make_authenticated_request w (env.USER_SERVICE_URL ++ "/users") "GET" none).1 =
        false →
     isOkE (make_authenticated_request w (env.ORDER_SERVICE_URL ++ "/orders") "GET" none).1 =
        false →
     errorsCount (aggregate_data env w).1.2 = 2 ∧
     getObjVal (aggregate_data env w).1.2 "aggregated_data" = some (Json.obj [])) := by
  rcases hcu : make_authenticated_request w (env.USER_SERVICE_URL ++ "/users") "GET" none
    with ⟨ru, evsu⟩
  rcases hco : make_authenticated_request w (env.ORDER_SERVICE_URL ++ "/orders") "GET" none
    with ⟨ro, evso⟩
  cases ru with
  | ok uj =>
    cases ro with
    | ok oj =>
      simp [aggregate_data, hu, ho, hcu, hco, hasKey, getObjVal, errorsCount, isOkE, List.lookup]
    | error oe =>
      simp [aggregate_data, hu, ho, hcu, hco, hasKey, getObjVal, errorsCount, isOkE, List.lookup]
  | error ue =>
    cases ro with
    | ok oj =>
      simp [aggregate_data, hu, ho, hcu, hco, hasKey, getObjVal, errorsCount, isOkE, List.lookup]
    | error oe =>
      simp [aggregate_data, hu, ho, hcu, hco, hasKey, getObjVal, errorsCount, isOkE, List.lookup]

theorem aggregate_accumulates_failures_witness :
    ((Env.mk "http://u" "http://o").USER_SERVICE_URL ≠ "") ∧
    ((Env.mk "http://u" "http://o").ORDER_SERVICE_URL ≠ "") ∧
    (aggregate_data (Env.mk "http://u" "http://o") w404).1.1 = 200 ∧
    errorsCount (aggregate_data (Env.mk "http://u" "http://o") w404).1.2 = 2 ∧
    getObjVal (aggregate_data (Env.mk "http://u" "http://o") w404).1.2 "aggregated_data" =
      some (Json.obj []) := by
  have h := aggregate_accumulates_failures (Env.mk "http://u" "http://o") w404
    (by decide) (by decide)
  exact ⟨by decide, by decide, h.1, (h.2.2.2.2 rfl rfl).1, (h.2.2.2.2 rfl rfl).2⟩
